import Mathlib

set_option maxHeartbeats 1000000

namespace IEO

/-! Shallow embedding of the two scripts of DrGuy/IEOtools,
convertlibrarytotiles.py and updatelandsat.py. Python exceptions are
modelled with Except, Python integers with Int/Nat, dates with
proleptic-Gregorian day numbers, and the external GDAL/OGR and ieo
library calls with explicit parameters or record fields. -/

/-- Python runtime errors raised by the embedded code. -/
inductive PyErr where
  | unboundLocalError
  | nameError
  | typeError
  | valueError
  deriving DecidableEq, Repr

/-! ### scenesearch metadata-query pagination (updatelandsat.py, lines 213-230) -/

/-- Python list slice ls[a:b] for nonnegative bounds: the elements at
indices a, a+1, ..., b-1 (the upper bound is exclusive). -/
def pySlice (l : List α) (a b : Nat) : List α := (l.drop a).take (b - a)

/-- The blocks of scene IDs sent to the metadata endpoint by scenesearch
(updatelandsat.py lines 215-230): iterations = math.ceil(len(querylist) / 100);
for each iteration, startval = iteration * 100 and, since the condition
iteration * 100 > len(querylist) never holds for iteration < iterations,
endval = startval + 99; the scene IDs put into the request string are
those of querylist[startval:endval]. -/
def queryBlocks (querylist : List α) : List (List α) :=
  let iterations := (querylist.length + 99) / 100
  (List.range iterations).map (fun iteration =>
    let startval := iteration * 100
    let endval := if iteration * 100 > querylist.length then
        querylist.length - startval - 1
      else startval + 99
    pySlice querylist startval endval)

/-- C1: the claim states that the accumulated query list is split into
consecutive blocks of at most 100 scene IDs and that every scene ID of the
query list ends up in exactly one metadata request. The code slices with an
exclusive upper bound querylist[startval:endval] where endval = startval + 99,
so each request holds at most 99 IDs and the ID at index 99 of each hundred is
sent in no request at all: with a query list of 100 scene IDs, the single
request carries only the first 99 and the last ID is dropped, even though the
adjacent print statement reports 100 scenes queried. -/
theorem scenesearch_metadata_blocks_drop_every_hundredth :
    queryBlocks (List.range 100) = [List.range 99] ∧
    99 ∈ List.range 100 ∧ ¬ 99 ∈ (queryBlocks (List.range 100)).flatten := by
  decide

/-! ### The download retry loops (updatelandsat.py, dlthumb lines 467-493
and dlxmls lines 431-460) -/

/-- Outcome of a single download attempt inside dlthumb: the download
succeeds with matching sizes, the sizes mismatch (the else branch at line
482), or a URLError is raised (the except branch at lines 484-487). -/
inductive DlOutcome where
  | success
  | sizeMismatch
  | urlError
  deriving DecidableEq, Repr

/-- State of the retry loops: the tries counter and the downloaded flag. -/
structure DlState where
  tries : Nat
  downloaded : Bool
  deriving DecidableEq, Repr

/-- The loop guard shared by dlthumb and dlxmls:
while not downloaded and tries < 6. -/
def dlGuard (st : DlState) : Bool := !st.downloaded && decide (st.tries < 6)

/-- One iteration body of dlthumb: on success the downloaded flag is set;
on a size mismatch tries is incremented; the URLError handler prints and
logs the error but leaves tries untouched (the source has no tries += 1
in the except branch). -/
def dlthumbStep (st : DlState) (o : DlOutcome) : DlState :=
  match o with
  | .success => { st with downloaded := true }
  | .sizeMismatch => { st with tries := st.tries + 1 }
  | .urlError => st

/-- Fuel-indexed runner for the while loops: k is the attempt index fed to
the step function, and the result is none when the fuel is exhausted with
the guard still true (the loop is still running after that many iterations). -/
def dlLoop (step : DlState → Nat → DlState) : Nat → Nat → DlState → Option DlState
  | 0, _, st => if dlGuard st then none else some st
  | fuel+1, k, st => if dlGuard st then dlLoop step fuel (k+1) (step st k) else some st

/-- The dlthumb retry loop, with the outcome of each attempt supplied by
the environment. -/
def dlthumbLoop (outcomes : Nat → DlOutcome) (fuel k : Nat) (st : DlState) : Option DlState :=
  dlLoop (fun st k => dlthumbStep st (outcomes k)) fuel k st

/-- Initial loop state of both loops: tries = 1, downloaded = False. -/
def dlInit : DlState := ⟨1, false⟩

/-- Outcome of a single download attempt inside dlxmls: success, or a
URLError handled by the except branch at lines 450-454. -/
inductive XmlOutcome where
  | success
  | urlError
  deriving DecidableEq, Repr

/-- One iteration body of dlxmls: on success the downloaded flag is set; the
URLError handler logs the error and increments tries (line 454). -/
def dlxmlsStep (st : DlState) (o : XmlOutcome) : DlState :=
  match o with
  | .success => { st with downloaded := true }
  | .urlError => { st with tries := st.tries + 1 }

/-- The dlxmls retry loop. -/
def dlxmlsLoop (outcomes : Nat → XmlOutcome) (fuel k : Nat) (st : DlState) : Option DlState :=
  dlLoop (fun st k => dlxmlsStep st (outcomes k)) fuel k st

/-- C3: the claim states every download loop makes at most five attempts and
always terminates, logging a failure after the fifth failed attempt. dlxmls
does so, but in dlthumb the URLError handler never increments tries, so when
every attempt raises URLError the loop keeps the state tries = 1 forever: for
every amount of fuel the loop is still running, hence it never terminates and
never reaches the post-loop failure logging. -/
theorem dlthumb_urlerror_never_terminates (fuel k : Nat) :
    dlthumbLoop (fun _ => DlOutcome.urlError) fuel k dlInit = none := by
  induction fuel generalizing k with
  | zero => rfl
  | succ n ih =>
    simpa [dlthumbLoop, dlLoop, dlGuard, dlthumbStep, dlInit] using ih (k+1)

/-- The dlxmls loop, in contrast, terminates: once the tries counter plus the
remaining fuel reaches 6 (or the download succeeded), the runner returns a
final state. In particular fuel 6 always suffices from the initial state. -/
theorem dlxmls_loop_terminates (outcomes : Nat → XmlOutcome) :
    ∀ fuel k st, st.downloaded = true ∨ 6 ≤ st.tries + fuel →
      (dlxmlsLoop outcomes fuel k st).isSome = true := by
  intro fuel
  induction fuel with
  | zero =>
    intro k st h
    have hg : dlGuard st = false := by
      rcases h with h | h
      · simp [dlGuard, h]
      · simp only [dlGuard, Bool.and_eq_false_iff]
        right
        simpa using by omega
    simp [dlxmlsLoop, dlLoop, hg]
  | succ n ih =>
    intro k st h
    by_cases hg : dlGuard st = true
    · have hd : st.downloaded = false := by
        rcases hb : st.downloaded with _ | _
        · rfl
        · simp [dlGuard, hb] at hg
      simp only [dlxmlsLoop, dlLoop, hg, if_true]
      cases ho : outcomes k with
      | success =>
        exact ih (k+1) _ (Or.inl (by simp [dlxmlsStep, ho]))
      | urlError =>
        refine ih (k+1) _ (Or.inr ?_)
        rcases h with h | h
        · rw [h] at hd; cases hd
        · simp [dlxmlsStep, ho]
          omega
    · simp only [dlxmlsLoop, dlLoop]
      rw [if_neg (by simpa using hg)]
      rfl

/-! ### convertlibrarytotiles.py: the main conversion loop (lines 51-91) -/

/-- rastertypes = ['pixel_qa', 'Fmask', 'ref', 'BT', 'NDVI', 'EVI']
(convertlibrarytotiles.py line 57). -/
def rastertypes : List String := ["pixel_qa", "Fmask", "ref", "BT", "NDVI", "EVI"]

/-- The six directory arguments and the two flags of convertlibrarytotiles.py
that the main loop reads (the outdir argument only affects where tiles are
written, not which converttotiles calls are made, so it is omitted). -/
structure TileArgs where
  pixelqadir : String
  fmaskdir : String
  srdir : String
  btdir : String
  ndvidir : String
  evidir : String
  skipqa : Bool
  vrt : Bool
  deriving DecidableEq, Repr

/-- dirs = [args.pixelqadir, args.fmaskdir, args.srdir, args.btdir,
args.ndvidir, args.evidir] (line 51). -/
def dirsOf (a : TileArgs) : List String :=
  [a.pixelqadir, a.fmaskdir, a.srdir, a.btdir, a.ndvidir, a.evidir]

/-- One call to ieo.converttotiles(f, outdir, rastertype, pixelqa = pixelqa, ...)
recorded with the arguments the claim is about. -/
structure ConvertCall where
  file : String
  rastertype : String
  pixelqa : Bool
  deriving DecidableEq, Repr

/-- os.path.join for the cases appearing here (joining two relative parts). -/
def joinPath (a b : String) : String := a ++ "/" ++ b

/-- The directory and pattern globbed for a given loop directory d
(lines 69-74): with --vrt, d becomes d/vrt unless d already ends in vrt or is
the pixel QA or Fmask directory, and the pattern is L*.vrt; otherwise the
pattern is L*.dat on d itself. -/
def globDir (a : TileArgs) (d : String) : String × String :=
  if a.vrt then
    (if !(d.endsWith "vrt") && !(d = a.pixelqadir || d = a.fmaskdir) then
       joinPath d "vrt" else d, "L*.vrt")
  else (d, "L*.dat")

/-- The sequence of converttotiles calls made by the main loop of
convertlibrarytotiles.py (lines 59-91), with the filesystem glob supplied as a
function from directory and pattern to the matched files. As in the source,
dn = dirs.index(d) is the index of the FIRST occurrence of the directory value
d in dirs, the skip test compares d against args.pixelqadir and args.fmaskdir
by value, rastertype = rastertypes[dn], and pixelqa is False for dn < 2 and
True otherwise. -/
def convertCalls (a : TileArgs) (glob : String → String → List String) :
    List ConvertCall :=
  (dirsOf a).foldl (fun acc d =>
    let dn := (dirsOf a).indexOf d
    if a.skipqa && (d = a.pixelqadir || d = a.fmaskdir) then acc
    else
      let gp := globDir a d
      let flist := glob gp.1 gp.2
      acc ++ flist.map (fun f =>
        { file := f, rastertype := rastertypes.getD dn "", pixelqa := decide (2 ≤ dn) }))
    []

/-- Spec-side rendering of claim C7: each of the six directories, taken at its
POSITION in the list, contributes its globbed files with the raster type at
the same position, pixelqa false for the first two positions and true for the
rest, and positions 0 and 1 skipped entirely under --skipqa. -/
def specConvertCalls (a : TileArgs) (glob : String → String → List String) :
    List ConvertCall :=
  (dirsOf a).enum.foldl (fun acc p =>
    let i := p.1
    let d := p.2
    if a.skipqa && decide (i < 2) then acc
    else
      let gp := globDir a d
      let flist := glob gp.1 gp.2
      acc ++ flist.map (fun f =>
        { file := f, rastertype := rastertypes.getD i "", pixelqa := decide (2 ≤ i) }))
    []

/-- Arguments in which the pixel QA and Fmask directories coincide. -/
def c7dupArgs : TileArgs :=
  { pixelqadir := "A", fmaskdir := "A", srdir := "s", btdir := "b",
    ndvidir := "n", evidir := "e", skipqa := false, vrt := false }

/-- A filesystem in which the shared directory A holds one matching file. -/
def c7dupGlob : String → String → List String :=
  fun d _ => if d = "A" then ["A/Lf.dat"] else []

/-- C7 counterexample: when the Fmask directory equals the pixel QA directory,
dirs.index(d) returns the first occurrence, so the file of the Fmask directory
(position 1) is converted twice with raster type pixel_qa and never with raster
type Fmask, contradicting the claim that every file of the directory at
position 1 is passed with the raster type at position 1. -/
theorem convertcalls_duplicate_dirs_counterexample :
    convertCalls c7dupArgs c7dupGlob =
      [{ file := "A/Lf.dat", rastertype := "pixel_qa", pixelqa := false },
       { file := "A/Lf.dat", rastertype := "pixel_qa", pixelqa := false }] ∧
    ¬ { file := "A/Lf.dat", rastertype := "Fmask", pixelqa := false } ∈
        convertCalls c7dupArgs c7dupGlob := by
  decide

/-- C7 amended: provided the six directory paths are pairwise distinct, the
loop behaves exactly as the claim states: position i contributes its globbed
files with rastertypes[i] and pixelqa (2 ≤ i), and --skipqa drops positions 0
and 1. -/
theorem convertcalls_distinct_dirs_positional (a : TileArgs)
    (glob : String → String → List String) (hnd : (dirsOf a).Nodup) :
    convertCalls a glob = specConvertCalls a glob := by
  simp only [dirsOf, List.nodup_cons, List.mem_cons, List.mem_singleton,
    List.not_mem_nil, or_false, not_or, List.nodup_nil, and_true] at hnd
  obtain ⟨⟨h01, h02, h03, h04, h05⟩, ⟨h12, h13, h14, h15⟩, ⟨h23, h24, h25⟩,
    ⟨h34, h35⟩, h45, -⟩ := hnd
  have e0 : (dirsOf a).indexOf a.pixelqadir = 0 := by
    simp [dirsOf, List.indexOf_cons_self]
  have e1 : (dirsOf a).indexOf a.fmaskdir = 1 := by
    simp [dirsOf, List.indexOf_cons_ne _ h01, List.indexOf_cons_self]
  have e2 : (dirsOf a).indexOf a.srdir = 2 := by
    simp [dirsOf, List.indexOf_cons_ne _ h02,
      List.indexOf_cons_ne _ h12, List.indexOf_cons_self]
  have e3 : (dirsOf a).indexOf a.btdir = 3 := by
    simp [dirsOf, List.indexOf_cons_ne _ h03,
      List.indexOf_cons_ne _ h13, List.indexOf_cons_ne _ h23,
      List.indexOf_cons_self]
  have e4 : (dirsOf a).indexOf a.ndvidir = 4 := by
    simp [dirsOf, List.indexOf_cons_ne _ h04,
      List.indexOf_cons_ne _ h14, List.indexOf_cons_ne _ h24,
      List.indexOf_cons_ne _ h34, List.indexOf_cons_self]
  have e5 : (dirsOf a).indexOf a.evidir = 5 := by
    simp [dirsOf, List.indexOf_cons_ne _ h05,
      List.indexOf_cons_ne _ h15, List.indexOf_cons_ne _ h25,
      List.indexOf_cons_ne _ h35, List.indexOf_cons_ne _ h45,
      List.indexOf_cons_self]
  simp only [convertCalls, specConvertCalls, List.enum, dirsOf, List.foldl] at e0 e1 e2 e3 e4 e5 ⊢
  simp only [e0, e1, e2, e3, e4, e5]
  simp [Ne.symm h02, Ne.symm h03, Ne.symm h04, Ne.symm h05,
    Ne.symm h12, Ne.symm h13, Ne.symm h14, Ne.symm h15]

/-- Witness for the amended C7 theorem at a concrete distinct-directory
configuration. -/
theorem convertcalls_distinct_dirs_positional_witness :
    (dirsOf { pixelqadir := "q", fmaskdir := "f", srdir := "s", btdir := "b",
              ndvidir := "n", evidir := "e", skipqa := false, vrt := false }).Nodup ∧
    convertCalls { pixelqadir := "q", fmaskdir := "f", srdir := "s", btdir := "b",
                   ndvidir := "n", evidir := "e", skipqa := false, vrt := false }
        (fun d _ => if d = "q" then ["Lq.dat"] else []) =
      specConvertCalls { pixelqadir := "q", fmaskdir := "f", srdir := "s", btdir := "b",
                         ndvidir := "n", evidir := "e", skipqa := false, vrt := false }
        (fun d _ => if d = "q" then ["Lq.dat"] else []) :=
  ⟨by decide, convertcalls_distinct_dirs_positional _ _ (by decide)⟩


/-! ### String helpers (kernel-computable, over character lists) -/

/-- Split a character list at every occurrence of the separator character. -/
def splitOnChar (c : Char) : List Char → List (List Char)
  | [] => [[]]
  | a :: rest =>
    let r := splitOnChar c rest
    if a = c then [] :: r
    else
      match r with
      | [] => [[a]]
      | h :: t => (a :: h) :: t

/-- Numeric value of a list of decimal digits. -/
def digitsVal (cs : List Char) : Nat :=
  cs.foldl (fun n c => n * 10 + (c.toNat - '0'.toNat)) 0

/-- Strip leading and trailing whitespace from a character list. -/
def pyStrip (cs : List Char) : List Char :=
  ((cs.dropWhile Char.isWhitespace).reverse.dropWhile Char.isWhitespace).reverse

/-- A nonempty all-digit character list parsed to a Nat, otherwise none. -/
def digitsToNat (cs : List Char) : Option Nat :=
  if cs ≠ [] ∧ cs.all Char.isDigit then some (digitsVal cs) else none

/-- Python int(str): strip whitespace, optional single sign, decimal digits;
any other shape raises ValueError, modelled as none. -/
def pyInt (s : String) : Option Int :=
  match pyStrip s.data with
  | [] => none
  | c :: rest =>
    if c = '-' then (digitsToNat rest).map (fun n => -(n : Int))
    else if c = '+' then (digitsToNat rest).map (fun n => (n : Int))
    else (digitsToNat (c :: rest)).map (fun n => (n : Int))

/-! ### The catalog field table (updatelandsat.py lines 570-674) -/

/-- OGR field types used by the scripts. -/
inductive OFT where
  | OFTString
  | OFTDate
  | OFTInteger
  | OFTReal
  deriving DecidableEq, Repr

/-- One row of fieldvaluelist: shapefile field name, geopackage field name,
EarthExplorer metadata field name, OGR type, width. -/
structure FieldSpec where
  shpname : String
  fname : String
  queryname : String
  ftype : OFT
  width : Nat
  deriving DecidableEq, Repr

/-- fieldvaluelist (updatelandsat.py lines 570-674), row for row. -/
def fieldvaluelist : List FieldSpec := [
  FieldSpec.mk "LandsatPID" "LANDSAT_PRODUCT_ID" "Landsat Product Identifier" OFT.OFTString 40,
  FieldSpec.mk "sceneID" "sceneID" "Landsat Scene Identifier" OFT.OFTString 21,
  FieldSpec.mk "SensorID" "SensorID" "Sensor Identifier" OFT.OFTString 0,
  FieldSpec.mk "SatNumber" "satelliteNumber" "Spacecraft Identifier" OFT.OFTString 0,
  FieldSpec.mk "acqDate" "acquisitionDate" "Acquisition Date" OFT.OFTDate 0,
  FieldSpec.mk "Updated" "dateUpdated" "modifiedDate" OFT.OFTDate 0,
  FieldSpec.mk "path" "path" "WRS Path" OFT.OFTInteger 0,
  FieldSpec.mk "row" "row" "WRS Row" OFT.OFTInteger 0,
  FieldSpec.mk "CenterLat" "sceneCenterLatitude" "Center Latitude dec" OFT.OFTReal 0,
  FieldSpec.mk "CenterLong" "sceneCenterLongitude" "Center Longitude dec" OFT.OFTReal 0,
  FieldSpec.mk "CC" "cloudCover" "Cloud Cover Truncated" OFT.OFTInteger 0,
  FieldSpec.mk "CCFull" "cloudCoverFull" "Scene Cloud Cover" OFT.OFTReal 0,
  FieldSpec.mk "CCLand" "CLOUD_COVER_LAND" "Land Cloud Cover" OFT.OFTReal 0,
  FieldSpec.mk "UL_Q_CCA" "FULL_UL_QUAD_CCA" "Cloud Cover Quadrant Upper Left" OFT.OFTReal 0,
  FieldSpec.mk "UR_Q_CCA" "FULL_UR_QUAD_CCA" "Cloud Cover Quadrant Upper Right" OFT.OFTReal 0,
  FieldSpec.mk "LL_Q_CCA" "FULL_LL_QUAD_CCA" "Cloud Cover Quadrant Lower Left" OFT.OFTReal 0,
  FieldSpec.mk "LR_Q_CCA" "FULL_LR_QUAD_CCA" "Cloud Cover Quadrant Lower Right" OFT.OFTReal 0,
  FieldSpec.mk "DT_L1" "DATA_TYPE_L1" "Data Type Level-1" OFT.OFTString 0,
  FieldSpec.mk "DT_L0RP" "DATA_TYPE_L0RP" "Data Type Level 0Rp" OFT.OFTString 0,
  FieldSpec.mk "L1_AVAIL" "L1_AVAILABLE" "L1 Available" OFT.OFTString 0,
  FieldSpec.mk "IMAGE_QUAL" "IMAGE_QUALITY" "Image Quality" OFT.OFTString 0,
  FieldSpec.mk "dayOrNight" "dayOrNight" "Day/Night Indicator" OFT.OFTString 0,
  FieldSpec.mk "sunEl" "sunElevation" "Sun Elevation L1" OFT.OFTReal 0,
  FieldSpec.mk "sunAz" "sunAzimuth" "Sun Azimuth L1" OFT.OFTReal 0,
  FieldSpec.mk "StartTime" "sceneStartTime" "Start Time" OFT.OFTDate 0,
  FieldSpec.mk "StopTime" "sceneStopTime" "Stop Time" OFT.OFTDate 0,
  FieldSpec.mk "UTM_ZONE" "UTM_ZONE" "UTM Zone" OFT.OFTInteger 0,
  FieldSpec.mk "DATUM" "DATUM" "Datum" OFT.OFTString 0,
  FieldSpec.mk "ELEVSOURCE" "ELEVATION_SOURCE" "Elevation Source" OFT.OFTString 0,
  FieldSpec.mk "ELLIPSOID" "ELLIPSOID" "Ellipsoid" OFT.OFTString 0,
  FieldSpec.mk "PROJ_L1" "MAP_PROJECTION_L1" "Map Projection Level-1" OFT.OFTString 0,
  FieldSpec.mk "PROJ_L0RA" "MAP_PROJECTION_L0RA" "Map Projection L0Ra" OFT.OFTString 0,
  FieldSpec.mk "ORIENT" "ORIENTATION" "Orientation" OFT.OFTString 0,
  FieldSpec.mk "EPHEM_TYPE" "EPHEMERIS_TYPE" "Ephemeris Type" OFT.OFTString 0,
  FieldSpec.mk "CPS_MODEL" "GROUND_CONTROL_POINTS_MODEL" "Ground Control Points Model" OFT.OFTInteger 0,
  FieldSpec.mk "GCPSVERIFY" "GROUND_CONTROL_POINTS_VERIFY" "Ground Control Points Version" OFT.OFTInteger 0,
  FieldSpec.mk "RMSE_MODEL" "GEOMETRIC_RMSE_MODEL" "Geometric RMSE Model (meters)" OFT.OFTReal 0,
  FieldSpec.mk "RMSE_X" "GEOMETRIC_RMSE_MODEL_X" "Geometric RMSE Model X" OFT.OFTReal 0,
  FieldSpec.mk "RMSE_Y" "GEOMETRIC_RMSE_MODEL_Y" "Geometric RMSE Model Y" OFT.OFTReal 0,
  FieldSpec.mk "RMSEVERIFY" "GEOMETRIC_RMSE_VERIFY" "Geometric RMSE Verify" OFT.OFTReal 0,
  FieldSpec.mk "FORMAT" "OUTPUT_FORMAT" "Output Format" OFT.OFTString 0,
  FieldSpec.mk "RESAMP_OPT" "RESAMPLING_OPTION" "Resampling Option" OFT.OFTString 0,
  FieldSpec.mk "LINES" "REFLECTIVE_LINES" "Reflective Lines" OFT.OFTInteger 0,
  FieldSpec.mk "SAMPLES" "REFLECTIVE_SAMPLES" "Reflective Samples" OFT.OFTInteger 0,
  FieldSpec.mk "TH_LINES" "THERMAL_LINES" "Thermal Lines" OFT.OFTInteger 0,
  FieldSpec.mk "TH_SAMPLES" "THERMAL_SAMPLES" "Thermal Samples" OFT.OFTInteger 0,
  FieldSpec.mk "PAN_LINES" "PANCHROMATIC_LINES" "Panchromatic Lines" OFT.OFTInteger 0,
  FieldSpec.mk "PANSAMPLES" "PANCHROMATIC_SAMPLES" "Panchromatic Samples" OFT.OFTInteger 0,
  FieldSpec.mk "GC_SIZE_R" "GRID_CELL_SIZE_REFLECTIVE" "Grid Cell Size Reflective" OFT.OFTInteger 0,
  FieldSpec.mk "GC_SIZE_TH" "GRID_CELL_SIZE_THERMAL" "Grid Cell Size Thermal" OFT.OFTInteger 0,
  FieldSpec.mk "GCSIZE_PAN" "GRID_CELL_SIZE_PANCHROMATIC" "Grid Cell Size Panchromatic" OFT.OFTInteger 0,
  FieldSpec.mk "PROCSOFTVE" "PROCESSING_SOFTWARE_VERSION" "Processing Software Version" OFT.OFTString 0,
  FieldSpec.mk "CPF_NAME" "CPF_NAME" "Calibration Parameter File" OFT.OFTString 0,
  FieldSpec.mk "DATEL1_GEN" "DATE_L1_GENERATED" "Date L-1 Generated" OFT.OFTString 0,
  FieldSpec.mk "GCP_Ver" "GROUND_CONTROL_POINTS_VERSION" "Ground Control Points Version" OFT.OFTInteger 0,
  FieldSpec.mk "DatasetID" "DatasetID" "Dataset Identifier" OFT.OFTString 0,
  FieldSpec.mk "CollectCat" "COLLECTION_CATEGORY" "Collection Category" OFT.OFTString 0,
  FieldSpec.mk "CollectNum" "COLLECTION_NUMBER" "Collection Number" OFT.OFTString 0,
  FieldSpec.mk "flightPath" "flightPath" "flightPath" OFT.OFTString 0,
  FieldSpec.mk "RecStation" "receivingStation" "Station Identifier" OFT.OFTString 0,
  FieldSpec.mk "imageQual1" "imageQuality1" "Image Quality 1" OFT.OFTString 0,
  FieldSpec.mk "imageQual2" "imageQuality2" "Image Quality 2" OFT.OFTString 0,
  FieldSpec.mk "gainBand1" "gainBand1" "Gain Band 1" OFT.OFTString 0,
  FieldSpec.mk "gainBand2" "gainBand2" "Gain Band 2" OFT.OFTString 0,
  FieldSpec.mk "gainBand3" "gainBand3" "Gain Band 3" OFT.OFTString 0,
  FieldSpec.mk "gainBand4" "gainBand4" "Gain Band 4" OFT.OFTString 0,
  FieldSpec.mk "gainBand5" "gainBand5" "Gain Band 5" OFT.OFTString 0,
  FieldSpec.mk "gainBand6H" "gainBand6H" "Gain Band 6H" OFT.OFTString 0,
  FieldSpec.mk "gainBand6L" "gainBand6L" "Gain Band 6L" OFT.OFTString 0,
  FieldSpec.mk "gainBand7" "gainBand7" "Gain Band 7" OFT.OFTString 0,
  FieldSpec.mk "gainBand8" "gainBand8" "Gain Band 8" OFT.OFTString 0,
  FieldSpec.mk "GainChange" "GainChange" "Gain Change" OFT.OFTString 0,
  FieldSpec.mk "GCBand1" "gainChangeBand1" "Gain Change Band 1" OFT.OFTString 0,
  FieldSpec.mk "GCBand2" "gainChangeBand2" "Gain Change Band 2" OFT.OFTString 0,
  FieldSpec.mk "GCBand3" "gainChangeBand3" "Gain Change Band 3" OFT.OFTString 0,
  FieldSpec.mk "GCBand4" "gainChangeBand4" "Gain Change Band 4" OFT.OFTString 0,
  FieldSpec.mk "GCBand5" "gainChangeBand5" "Gain Change Band 5" OFT.OFTString 0,
  FieldSpec.mk "GCBand6H" "gainChangeBand6H" "Gain Change Band 6H" OFT.OFTString 0,
  FieldSpec.mk "GCBand6L" "gainChangeBand6L" "Gain Change Band 6L" OFT.OFTString 0,
  FieldSpec.mk "GCBand7" "gainChangeBand7" "Gain Change Band 7" OFT.OFTString 0,
  FieldSpec.mk "GCBand8" "gainChangeBand8" "Gain Change Band 8" OFT.OFTString 0,
  FieldSpec.mk "SCAN_GAP_I" "SCAN_GAP_INTERPOLATION" "Scan Gap Interpolation" OFT.OFTInteger 0,
  FieldSpec.mk "ROLL_ANGLE" "ROLL_ANGLE" "Roll Angle" OFT.OFTReal 0,
  FieldSpec.mk "FULL_PART" "FULL_PARTIAL_SCENE" "Full Partial Scene" OFT.OFTString 0,
  FieldSpec.mk "NADIR_OFFN" "NADIR_OFFNADIR" "Nadir/Off Nadir" OFT.OFTString 0,
  FieldSpec.mk "RLUT_FNAME" "RLUT_FILE_NAME" "RLUT File Name" OFT.OFTString 0,
  FieldSpec.mk "BPF_N_OLI" "BPF_NAME_OLI" "Bias Parameter File Name OLI" OFT.OFTString 0,
  FieldSpec.mk "BPF_N_TIRS" "BPF_NAME_TIRS" "Bias Parameter File Name TIRS" OFT.OFTString 0,
  FieldSpec.mk "TIRS_SSM" "TIRS_SSM_MODEL" "TIRS SSM Model" OFT.OFTString 0,
  FieldSpec.mk "TargetPath" "Target_WRS_Path" "Target WRS Path" OFT.OFTInteger 0,
  FieldSpec.mk "TargetRow" "Target_WRS_Row" "Target WRS Row" OFT.OFTInteger 0,
  FieldSpec.mk "DataAnom" "data_anomaly" "Data Anomaly" OFT.OFTString 0,
  FieldSpec.mk "GapPSource" "gap_phase_source" "Gap Phase Source" OFT.OFTString 0,
  FieldSpec.mk "GapPStat" "gap_phase_statistic" "Gap Phase Statistic" OFT.OFTReal 0,
  FieldSpec.mk "L7SLConoff" "scan_line_corrector" "Scan Line Corrector" OFT.OFTString 0,
  FieldSpec.mk "SensorAnom" "sensor_anomalies" "Sensor Anomalies" OFT.OFTString 0,
  FieldSpec.mk "SensorMode" "sensor_mode" "Sensor Mode" OFT.OFTString 0,
  FieldSpec.mk "browse" "browseAvailable" "Browse Available" OFT.OFTString 0,
  FieldSpec.mk "browseURL" "browseURL" "browseUrl" OFT.OFTString 0,
  FieldSpec.mk "MetadatUrl" "metadataUrl" "metadataUrl" OFT.OFTString 0,
  FieldSpec.mk "FGDCMetdat" "fgdcMetadataUrl" "fgdcMetadataUrl" OFT.OFTString 0,
  FieldSpec.mk "dataAccess" "dataAccess" "dataAccessUrl" OFT.OFTString 0,
  FieldSpec.mk "orderUrl" "orderUrl" "orderUrl" OFT.OFTString 0,
  FieldSpec.mk "DownldUrl" "downloadUrl" "downloadUrl" OFT.OFTString 0]

/-- queryfieldnames: the third column of fieldvaluelist (lines 676-681). -/
def queryfieldnames : List String := fieldvaluelist.map (fun fs => fs.queryname)

/-- fnames: the second column of fieldvaluelist (lines 676-681). -/
def fnames : List String := fieldvaluelist.map (fun fs => fs.fname)

/-- The OGR type fieldvaluelist assigns to an EarthExplorer metadata field
name, via queryfieldnames.index(fieldname) as in scenesearch line 259. -/
def fieldTypeOfQueryName (name : String) : Option OFT :=
  (fieldvaluelist.find? (fun fs => fs.queryname == name)).map (fun fs => fs.ftype)

/-! ### Per-item error handling: the tile-conversion loop
(convertlibrarytotiles.py lines 87-91) and the integer field conversion in
scenesearch (updatelandsat.py lines 269-274) -/

/-- Result of the call ieo.converttotiles(f, ...): it returns, or raises an
exception with the given message. -/
inductive ConvertOutcome where
  | ok
  | exn (msg : String)
  deriving DecidableEq, Repr

/-- State of the conversion loop: the files reached so far and the
ieo.logerror(f, e) records. -/
structure TilesRunState where
  processed : List String
  errorlog : List (String × String)
  deriving DecidableEq, Repr

/-- Body of the try/except at convertlibrarytotiles.py lines 87-91: an
exception from converttotiles is caught, logged with ieo.logerror, and the
loop moves to the next file. -/
def tilesLoopStep (st : TilesRunState) (item : String × ConvertOutcome) : TilesRunState :=
  match item.2 with
  | .ok => { st with processed := st.processed ++ [item.1] }
  | .exn e => { processed := st.processed ++ [item.1],
                errorlog := st.errorlog ++ [(item.1, e)] }

/-- The conversion loop over the globbed files of a directory, each with the
outcome of its converttotiles call. -/
def tilesLoop (items : List (String × ConvertOutcome)) : TilesRunState :=
  items.foldl tilesLoopStep { processed := [], errorlog := [] }

/-- Result of the integer conversion step at updatelandsat.py lines 269-274:
value = int(value) inside a try whose except prints an error and calls
sys.exit(), terminating the whole run without any ieo.logerror call. -/
inductive FieldStep where
  | value (v : Int)
  | exitProgram
  deriving DecidableEq, Repr

/-- The integer-typed metadata field conversion of scenesearch
(updatelandsat.py lines 269-274). -/
def scenesearchIntField (value : String) : FieldStep :=
  match pyInt value with
  | some n => .value n
  | none => .exitProgram

/-- C4 counterexample: the claim states that every per-item processing error
is logged via ieo.logerror and processing continues with the next item. But
in scenesearch, when an integer-typed metadata field (here WRS Path, an
OFTInteger field of fieldvaluelist) carries an unparsable value, the except
branch calls sys.exit(): the run terminates and ieo.logerror is never called. -/
theorem scenesearch_int_field_exits_counterexample :
    fieldTypeOfQueryName "WRS Path" = some OFT.OFTInteger ∧
    scenesearchIntField "N/A" = FieldStep.exitProgram := by
  constructor
  · rfl
  · decide

/-- C4 amended: in the tile-conversion loop every exception is logged and the
loop continues with the next item, so all items are processed and exactly the
failing ones are logged; in scenesearch, however, an integer field value that
int() cannot parse terminates the whole run via sys.exit() without logging. -/
theorem tiles_loop_continues_but_scenesearch_int_exits :
    (∀ items : List (String × ConvertOutcome),
      (tilesLoop items).processed = items.map Prod.fst ∧
      (tilesLoop items).errorlog = items.filterMap (fun it =>
        match it.2 with
        | .ok => none
        | .exn e => some (it.1, e))) ∧
    (∀ v : String, pyInt v = none → scenesearchIntField v = FieldStep.exitProgram) := by
  constructor
  · intro items
    suffices h : ∀ st : TilesRunState,
        (items.foldl tilesLoopStep st).processed = st.processed ++ items.map Prod.fst ∧
        (items.foldl tilesLoopStep st).errorlog = st.errorlog ++ items.filterMap (fun it =>
          match it.2 with
          | .ok => none
          | .exn e => some (it.1, e)) by
      simpa [tilesLoop] using h { processed := [], errorlog := [] }
    induction items with
    | nil => intro st; simp
    | cons it rest ih =>
      intro st
      obtain ⟨p, q⟩ := ih (tilesLoopStep st it)
      cases it with
      | mk f oc =>
        cases oc with
        | ok => simp_all [tilesLoopStep]
        | exn e => simp_all [tilesLoopStep]
  · intro v hv
    simp [scenesearchIntField, hv]

/-- Witness for the amended C4 theorem at a concrete unparsable value. -/
theorem tiles_loop_continues_but_scenesearch_int_exits_witness :
    pyInt "L1TP" = none ∧ scenesearchIntField "L1TP" = FieldStep.exitProgram :=
  ⟨by decide, tiles_loop_continues_but_scenesearch_int_exits.2 "L1TP" (by decide)⟩

/-! ### scenesearch date windows (updatelandsat.py lines 154-180, 298) -/

/-- Proleptic-Gregorian day number of a calendar date, the arithmetic model
of Python datetime.datetime: day 0 is 1970-01-01 and adding
datetime.timedelta(days = n) adds n. All dates appearing here are after
1900, so every intermediate quantity below is nonnegative. -/
def daysFromCivil (y m d : Int) : Int :=
  let yy := if m ≤ 2 then y - 1 else y
  let era := (if 0 ≤ yy then yy else yy - 399) / 400
  let yoe := yy - era * 400
  let mp := if 2 < m then m - 3 else m + 9
  let doy := (153 * mp + 2) / 5 + d - 1
  let doe := yoe * 365 + yoe / 4 - yoe / 100 + doy
  era * 146097 + doe - 719468

/-- The while loop of scenesearch (lines 174-180 and 298): starting from
datetuple, emit windows (datetuple, edatetuple) with
edatetuple = min(datetuple + 365 days, enddatetuple), then continue from
edatetuple + 1 day while datetuple < enddatetuple. The fuel argument only
bounds the iteration count; each iteration advances the start by at least
two days, so the fuel chosen in windowsFrom is never exhausted. -/
def windowsFromFuel : Nat → Int → Int → List (Int × Int)
  | 0, _, _ => []
  | fuel+1, start, stop =>
    if start < stop then
      let e := min (start + 365) stop
      (start, e) :: windowsFromFuel fuel (e + 1) stop
    else []

/-- The full list of search windows emitted between two day numbers. -/
def windowsFrom (start stop : Int) : List (Int × Int) :=
  windowsFromFuel (stop - start).toNat start stop

/-- datasetNames with each collection's sensor launch date
(updatelandsat.py line 154). -/
def datasetNames : List (String × Int) :=
  [("LANDSAT_8_C1", daysFromCivil 2013 2 11),
   ("LANDSAT_ETM_C1", daysFromCivil 1999 4 15),
   ("LANDSAT_TM_C1", daysFromCivil 1982 7 16)]

/-- End of the Landsat 5 mission, 2013-06-05 (line 171). -/
def landsat5End : Int := daysFromCivil 2013 6 5

/-- The start date chosen at lines 159-162: lastmodifiedDate when it is set
and neither updatemissing nor badgeom is nonempty, else args.startdate. -/
def searchStartdate (lastmodifiedDate : Option Int)
    (nUpdatemissing nBadgeom : Nat) (argsStartdate : Int) : Int :=
  match lastmodifiedDate with
  | some lm => if 0 < nUpdatemissing ∨ 0 < nBadgeom then argsStartdate else lm
  | none => argsStartdate

/-- The windows scenesearch issues for one collection (lines 163-180): the
start is clamped up to the sensor launch date, and for LANDSAT_TM_C1 the end
is clamped down to the end of the Landsat 5 mission. -/
def collectionWindows (datasetName : String) (sensorStart : Int)
    (startdate argsEnddate : Int) : List (Int × Int) :=
  let datetuple := if startdate < sensorStart then sensorStart else startdate
  let enddatetuple :=
    if datasetName = "LANDSAT_TM_C1" ∧ landsat5End < argsEnddate then landsat5End
    else argsEnddate
  windowsFrom datetuple enddatetuple

/-- Every window emitted between start and stop begins no earlier than start
and ends no later than stop. -/
theorem windowsFromFuel_bounds : ∀ fuel (s e : Int) (w : Int × Int),
    w ∈ windowsFromFuel fuel s e → s ≤ w.1 ∧ w.2 ≤ e := by
  intro fuel
  induction fuel with
  | zero => intro s e w hw; simp [windowsFromFuel] at hw
  | succ n ih =>
    intro s e w hw
    by_cases hs : s < e
    · simp only [windowsFromFuel, if_pos hs, List.mem_cons] at hw
      rcases hw with hw | hw
      · subst hw
        constructor
        · exact le_refl s
        · exact min_le_right _ _
      · have h := ih (min (s + 365) e + 1) e w hw
        refine ⟨le_trans ?_ h.1, h.2⟩
        have : s ≤ min (s + 365) e := le_min (by omega) (le_of_lt hs)
        omega
    · simp [windowsFromFuel, hs] at hw

/-- C10: every metadata search window issued by scenesearch is bounded per
collection: for each (datasetName, launch date) pair of datasetNames, no
window starts before the launch date (2013-02-11 for LANDSAT_8_C1,
1999-04-15 for LANDSAT_ETM_C1, 1982-07-16 for LANDSAT_TM_C1), and no window
of LANDSAT_TM_C1 ends after 2013-06-05, the end of the Landsat 5 mission.
The start date may come from either branch of searchStartdate and the end
date is arbitrary. -/
theorem scenesearch_windows_bounded (name : String) (sensorStart : Int)
    (lastmodifiedDate : Option Int) (nUpdatemissing nBadgeom : Nat)
    (argsStartdate argsEnddate : Int) (w : Int × Int)
    (hds : (name, sensorStart) ∈ datasetNames)
    (hw : w ∈ collectionWindows name sensorStart
      (searchStartdate lastmodifiedDate nUpdatemissing nBadgeom argsStartdate)
      argsEnddate) :
    sensorStart ≤ w.1 ∧ (name = "LANDSAT_TM_C1" → w.2 ≤ landsat5End) := by
  unfold collectionWindows windowsFrom at hw
  have hb := windowsFromFuel_bounds _ _ _ _ hw
  constructor
  · refine le_trans ?_ hb.1
    split
    · exact le_refl _
    · omega
  · intro hname
    refine le_trans hb.2 ?_
    subst hname
    by_cases hle : landsat5End < argsEnddate
    · simp [hle]
    · rw [if_neg (by simp [hle])]
      omega

/-- Witness for C10: the LANDSAT_TM_C1 collection queried from 2013-01-01
through 2013-12-31 issues the single window (2013-01-01, 2013-06-05), which
indeed starts after the launch date and ends at the Landsat 5 mission end. -/
theorem scenesearch_windows_bounded_witness :
    ("LANDSAT_TM_C1", daysFromCivil 1982 7 16) ∈ datasetNames ∧
    (daysFromCivil 2013 1 1, landsat5End) ∈ collectionWindows "LANDSAT_TM_C1"
      (daysFromCivil 1982 7 16)
      (searchStartdate (some (daysFromCivil 2013 1 1)) 0 0 (daysFromCivil 1982 7 16))
      (daysFromCivil 2013 12 31) ∧
    daysFromCivil 1982 7 16 ≤ daysFromCivil 2013 1 1 ∧
    ("LANDSAT_TM_C1" = "LANDSAT_TM_C1" → landsat5End ≤ landsat5End) :=
  ⟨by decide, by decide,
    (scenesearch_windows_bounded "LANDSAT_TM_C1" (daysFromCivil 1982 7 16)
      (some (daysFromCivil 2013 1 1)) 0 0 (daysFromCivil 1982 7 16)
      (daysFromCivil 2013 12 31) (daysFromCivil 2013 1 1, landsat5End)
      (by decide) (by decide)).1,
    fun h => (scenesearch_windows_bounded "LANDSAT_TM_C1" (daysFromCivil 1982 7 16)
      (some (daysFromCivil 2013 1 1)) 0 0 (daysFromCivil 1982 7 16)
      (daysFromCivil 2013 12 31) (daysFromCivil 2013 1 1, landsat5End)
      (by decide) (by decide)).2 h⟩

/-! ### migrate: shapefile-to-geopackage migration
(updatelandsat.py lines 355-426, call site lines 714-715) -/

/-- Python values stored in OGR feature fields here. -/
inductive PyVal where
  | str (s : String)
  | bool (b : Bool)
  | none
  deriving DecidableEq, Repr

/-- str() of a field value, as used in string formatting and path joining. -/
def pyValStr : PyVal → String
  | .str s => s
  | .bool b => if b then "True" else "False"
  | .none => "None"

/-- Python function locals as an association list; reading a name that the
function assigns somewhere but that has not been bound yet raises
UnboundLocalError. -/
def readLocal (locals : List (String × PyVal)) (name : String) : Except PyErr PyVal :=
  match locals.lookup name with
  | some v => .ok v
  | Option.none => .error .unboundLocalError

/-- Python dict.get(key, default): the default expression is evaluated before
the call, whether or not the key is present in the dictionary. -/
def dictGet (d : List (String × PyVal)) (key : String) (default : Except PyErr PyVal) :
    Except PyErr PyVal := do
  let dv ← default
  pure ((d.lookup key).getD dv)

/-- A feature of the legacy shapefile: its fields and its geometry
(a list of vertices, coordinates modelled as integer pairs since the ring
logic only moves and compares them). -/
structure ShpFeature where
  fields : List (String × PyVal)
  geometry : List (Int × Int)
  deriving DecidableEq, Repr

/-- feature.GetField(k): the stored value, null for an absent field. -/
def ShpFeature.getField (f : ShpFeature) (k : String) : PyVal :=
  (f.fields.lookup k).getD PyVal.none

/-- A feature of the geopackage catalog layer. -/
structure GpkgFeature where
  fields : List (String × PyVal)
  geometry : Option (List (Int × Int))
  deriving DecidableEq, Repr

/-- Setting a field: the new binding shadows any earlier one
(List.lookup returns the first hit). -/
def setField (fields : List (String × PyVal)) (k : String) (v : PyVal) :
    List (String × PyVal) :=
  (k, v) :: fields

/-- The keys of tilesearchdict (updatelandsat.py lines 362-367). -/
def tilesearchKeys : List String :=
  ["SR_path", "BT_path", "Fmask_path", "PixQA_path", "NDVI_path", "EVI_path"]

/-- The extra entries written into fieldvaluedict at lines 371-379, after
the per-row entries item[0] -> item[1]. -/
def fieldvaluedictExtra : List (String × String) :=
  [("MaskType", "Scene_mask_type"),
   ("Thumb_JPG", "Thumbnail_filename"),
   ("SR_path", "Surface_reflectance_tiles"),
   ("BT_path", "Brightness_temperature_tiles"),
   ("Fmask_path", "CFmask_tiles"),
   ("PixQA_path", "Pixel_QA_tiles"),
   ("NDVI_path", "NDVI_tiles"),
   ("EVI_path", "EVI_tiles"),
   ("tilebase", "Tile_filename_base")]

/-- fieldvaluedict (lines 368-379): shapefile field name to geopackage field
name; no extra key collides with a shapefile name, so list order is
irrelevant to lookup. -/
def fieldvaluedict : List (String × String) :=
  fieldvaluelist.map (fun fs => (fs.shpname, fs.fname)) ++ fieldvaluedictExtra

/-- os.path.basename: the part after the last slash. -/
def basenameOf (p : String) : String :=
  String.mk ((splitOnChar '/' p.data).getLastD [])

/-- Index of the first occurrence of a substring, -1 when absent
(Python str.find). -/
def subIndexAux (pat : List Char) : List Char → Nat → Option Nat
  | [], i => if pat = [] then some i else Option.none
  | c :: rest, i =>
    if pat.isPrefixOf (c :: rest) then some i else subIndexAux pat rest (i + 1)

/-- Python s.find(pat). -/
def pyFind (s pat : String) : Int :=
  match subIndexAux pat.data s.data 0 with
  | some i => (i : Int)
  | Option.none => -1

/-- basename[12:j] with j = basename.find('.dat'), the tile chunk extracted
from a matched tile filename at migrate lines 405-407 (a Python slice with a
negative end index counts from the end). -/
def tileChunk (f : String) : String :=
  let b := basenameOf f
  let j := pyFind b ".dat"
  if j < 0 then String.mk ((b.drop 12).data.dropLast)
  else (b.drop 12).take (j.toNat - 12)

/-- The feature-migration loop of migrate (lines 385-423), reached only after
the two kwargs.get statements. sceneids are the sceneID fields already in the
geopackage layer; a shapefile feature is migrated only if
ieo.checkscenegeometry returns falsy AND its sceneid is in sceneids. Field
values are copied under the fieldvaluedict renaming; the six tile-path fields
get a comma-joined list of tile chunks globbed from the corresponding tile
directory; layer.SetFeature on the freshly created feature is modelled as
appending it to the layer. checkscenegeometry, the glob, os.path.isfile, the
ieo directory basenames and the thumbnail directory are inputs of the model. -/
def migrateBody (check : ShpFeature → Bool) (glob : String → String → List String)
    (isfile : String → Bool) (ieoBasename : String → String) (jpgdir : String)
    (tiledir : String) (fnamelist : List String) (shpFeatures : List ShpFeature)
    (layer : List GpkgFeature) : List GpkgFeature :=
  let sceneids := layer.map (fun g => (g.fields.lookup "sceneID").getD PyVal.none)
  shpFeatures.foldl (fun lyr feature =>
    if !(check feature) && sceneids.contains (feature.getField "sceneID") then
      let tilebase := pyValStr (feature.getField "tilebase")
      let outfields := fnamelist.foldl (fun ofs field =>
        if tilesearchKeys.contains field then
          let filelist := glob (joinPath tiledir (ieoBasename field)) (tilebase ++ "_*.dat")
          if 0 < filelist.length then
            let tilestr := filelist.foldl (fun acc f => acc ++ "," ++ tileChunk f) ""
            setField ofs ((fieldvaluedict.lookup field).getD "") (PyVal.str (tilestr.drop 1))
          else ofs
        else if (fieldvaluedict.lookup field).isSome then
          if field = "Thumbnail_filename" then
            let value := pyValStr (feature.getField field)
            let value :=
              if !(isfile value) then
                let v := joinPath jpgdir (pyValStr (feature.getField "LandsatPID"))
                if !(isfile v) then joinPath jpgdir (pyValStr (feature.getField "sceneID"))
                else v
              else value
            if isfile value then
              setField ofs ((fieldvaluedict.lookup field).getD "")
                (PyVal.str (basenameOf value))
            else ofs
          else setField ofs ((fieldvaluedict.lookup field).getD "") (feature.getField field)
        else ofs) ([] : List (String × PyVal))
      lyr ++ [{ fields := outfields, geometry := some feature.geometry }]
    else lyr) layer

/-- migrate (updatelandsat.py lines 355-426). Its body first binds
tiledir = kwargs.get('tiledir', os.path.dirname(ieo.srdir)) and then
verbose = kwargs.get('verbose', verbose). Because verbose is assigned by that
second statement it is a local name of the whole function, and Python
evaluates the default argument of kwargs.get before the call, so the read of
verbose hits a local that is not yet bound. Everything else (the migration
loop, migrateBody) sits after this statement. defaultTiledir stands for
os.path.dirname(ieo.srdir), a value of the external ieo configuration. -/
def migrate (check : ShpFeature → Bool) (glob : String → String → List String)
    (isfile : String → Bool) (ieoBasename : String → String) (jpgdir : String)
    (defaultTiledir : String) (kwargs : List (String × PyVal))
    (fnamelist : List String) (shpFeatures : List ShpFeature)
    (layer : List GpkgFeature) : Except PyErr (List GpkgFeature) := do
  let tiledir ← dictGet kwargs "tiledir" (.ok (.str defaultTiledir))
  let _verbose ← dictGet kwargs "verbose" (readLocal [("tiledir", tiledir)] "verbose")
  pure (migrateBody check glob isfile ieoBasename jpgdir (pyValStr tiledir)
    fnamelist shpFeatures layer)

/-- C8: every call to migrate raises UnboundLocalError before migrating any
feature: whatever the keyword arguments, the shapefile contents, the layer
contents and the external helpers, the evaluation of
kwargs.get('verbose', verbose) reads the unbound local verbose, so migrate
returns that error and the migration loop is never entered. -/
theorem migrate_always_raises_unbound_local (check : ShpFeature → Bool)
    (glob : String → String → List String) (isfile : String → Bool)
    (ieoBasename : String → String) (jpgdir defaultTiledir : String)
    (kwargs : List (String × PyVal)) (fnamelist : List String)
    (shpFeatures : List ShpFeature) (layer : List GpkgFeature) :
    migrate check glob isfile ieoBasename jpgdir defaultTiledir kwargs
      fnamelist shpFeatures layer = .error .unboundLocalError := by
  simp only [migrate, dictGet, readLocal, List.lookup, bind, Except.bind]
  rfl

/-- A migratable shapefile feature: good geometry and a sceneID present in
the geopackage layer. -/
def c2shpFeature : ShpFeature :=
  { fields := [("sceneID", .str "LT50050551990001AAA00"), ("tilebase", .str "LT5_005055")],
    geometry := [(0, 0), (2, 0), (2, 2), (0, 2), (0, 0)] }

/-- The matching geopackage feature already in the layer. -/
def c2gpkgFeature : GpkgFeature :=
  { fields := [("sceneID", .str "LT50050551990001AAA00")], geometry := Option.none }

/-- C2: the claim states that migrate copies every shapefile feature passing
the geometry check into the geopackage layer. Evaluating migrate at a
concrete call in which the single feature passes the geometry check (the
check returns false) and even sits in the layer's scene list, with the
verbose keyword argument supplied, still yields UnboundLocalError: nothing
is ever copied. -/
theorem migrate_concrete_call_crashes :
    migrate (fun _ => false) (fun _ _ => []) (fun _ => false) (fun _ => "x") "jpg" "tiles"
      [("verbose", PyVal.bool true), ("tiledir", PyVal.str "tiles")]
      ["sceneID", "tilebase"] [c2shpFeature] [c2gpkgFeature] =
      .error .unboundLocalError := by
  rfl

/-! ### The catalog validation pass (updatelandsat.py lines 741-816) and the
ring construction for new and refreshed geometries (lines 875-888, 916-935) -/

/-- Valid sensor identifiers (line 767). -/
def validSensorIDs : List String := ["TM", "ETM", "OLI", "TIRS", "OLI_TIRS"]

/-- Python strptime(s, '%Y/%m/%d') modelled as a day number: three
slash-separated all-digit components with basic range checks; any other
shape raises, modelled as none. -/
def parseYMDslash (s : String) : Option Int :=
  match splitOnChar '/' s.data with
  | [y, m, d] =>
    match digitsToNat y, digitsToNat m, digitsToNat d with
    | some yn, some mn, some dn =>
      if 1 ≤ mn ∧ mn ≤ 12 ∧ 1 ≤ dn ∧ dn ≤ 31 then
        some (daysFromCivil (yn : Int) (mn : Int) (dn : Int))
      else Option.none
    | _, _, _ => Option.none
  | _ => Option.none

/-- Python strptime(s, '%Y%j') on sceneID[9:16]: a four-digit year and a
three-digit day of year; any other shape raises, modelled as none. -/
def parseYJ (s : String) : Option (Nat × Nat) :=
  if s.length = 7 ∧ s.data.all Char.isDigit then
    match digitsToNat (s.data.take 4), digitsToNat (s.data.drop 4) with
    | some y, some j => if 1 ≤ j ∧ j ≤ 366 then some (y, j) else Option.none
    | _, _ => Option.none
  else Option.none

/-- envelope returned by geom.GetEnvelope(): (minX, maxX, minY, maxY). -/
structure Envelope where
  minX : Int
  maxX : Int
  minY : Int
  maxY : Int
  deriving DecidableEq, Repr

/-- A feature as seen by the validation loop. sceneID is none when
feature.GetField("sceneID") raises (the try at lines 754-765); sensorID is
the SensorID field value, null allowed; dateUpdated is the dateUpdated field
value; envelope is none when reading the geometry or its envelope raises
(the try at lines 795-812). -/
structure VFeature where
  fid : Nat
  sceneID : Option String
  sensorID : Option String
  dateUpdated : Option String
  envelope : Option Envelope
  deriving DecidableEq, Repr

/-- The mutable state threaded through the validation loop. -/
structure ValState where
  scenelist : List String
  updatemissing : List String
  badgeom : List String
  reimport : List (Nat × Nat)
  deleted : List Nat
  errTotal : Nat
  errMetadata : Nat
  errDate : Nat
  errGeometry : Nat
  lastupdate : Option Int
  lastmodifiedDate : Option String
  deriving DecidableEq, Repr

/-- The dateUpdated check (lines 777-792): parse the field with '%Y/%m/%d';
on success track the most recent modification date, on any exception log and
append the scene to updatemissing. -/
def dateCheck (st : ValState) (sid : String) (f : VFeature) : ValState :=
  match f.dateUpdated.bind parseYMDslash with
  | some dnum =>
    match st.lastupdate with
    | Option.none => { st with lastupdate := some dnum, lastmodifiedDate := f.dateUpdated }
    | some lu =>
      if lu < dnum then { st with lastupdate := some dnum, lastmodifiedDate := f.dateUpdated }
      else st
  | Option.none =>
    { st with updatemissing := st.updatemissing ++ [sid],
              errTotal := st.errTotal + 1, errDate := st.errDate + 1 }

/-- The geometry check (lines 795-812): a feature lands in badgeom exactly
when reading its geometry raises or its envelope is degenerate
(env[0] == env[1], i.e. minX = maxX, or env[2] == env[3], i.e. minY = maxY);
the error counters are only incremented in the exception branch, exactly as
in the source. The feature is not deleted in either branch. -/
def geomCheck (st : ValState) (sid : String) (f : VFeature) : ValState :=
  match f.envelope with
  | some env =>
    if env.minX = env.maxX ∨ env.minY = env.maxY then
      { st with badgeom := st.badgeom ++ [sid] }
    else st
  | Option.none =>
    { st with badgeom := st.badgeom ++ [sid],
              errTotal := st.errTotal + 1, errGeometry := st.errGeometry + 1 }

/-- One iteration of the validation loop body (lines 752-815): a feature
whose sceneID read raises is deleted; otherwise its sceneID is appended to
scenelist; a feature whose SensorID is not among the valid sensors has its
acquisition date strptime(sceneID[9:16], '%Y%j') appended to reimport (an
unparsable sceneID would raise out of the loop) and is deleted; otherwise
the date and geometry checks run. -/
def validationStep (st : ValState) (f : VFeature) : Except PyErr ValState :=
  match f.sceneID with
  | Option.none => .ok { st with deleted := st.deleted ++ [f.fid] }
  | some sid =>
    let st1 := { st with scenelist := st.scenelist ++ [sid] }
    if !((validSensorIDs.map Option.some).contains f.sensorID) then
      match parseYJ ((sid.drop 9).take 7) with
      | Option.none => .error .valueError
      | some yj =>
        .ok { st1 with reimport := st1.reimport ++ [yj],
                       deleted := st1.deleted ++ [f.fid],
                       errTotal := st1.errTotal + 1,
                       errMetadata := st1.errMetadata + 1 }
    else .ok (geomCheck (dateCheck st1 sid f) sid f)

/-- The while loop at lines 751-815, started on a current feature: process
it, then fetch the next feature until the layer is exhausted. -/
def validationLoopFrom : VFeature → List VFeature → ValState → Except PyErr ValState
  | f, rest, st =>
    match validationStep st f with
    | .error e => .error e
    | .ok st1 =>
      match rest with
      | [] => .ok st1
      | g :: gs => validationLoopFrom g gs st1

/-- The initial validation state (lines 719-745). -/
def initValState : ValState :=
  { scenelist := [], updatemissing := [], badgeom := [], reimport := [],
    deleted := [], errTotal := 0, errMetadata := 0, errDate := 0,
    errGeometry := 0, lastupdate := Option.none, lastmodifiedDate := Option.none }

/-- The whole validation pass (lines 747-816). When the layer is nonempty,
line 750 calls layer.GetNextFeature() WITHOUT assigning the result, so the
layer's first feature is consumed and discarded; line 751 then evaluates
while feature: on the module-level name feature, which is unbound unless the
earlier WRS-2 loop (line 100, only under useWRS2 == 'yes') left a stale
WRS-2 feature in it. featureVar is that binding: none means unbound, and
evaluating an unbound name raises NameError. -/
def validationPass (features : List VFeature) (featureVar : Option VFeature) :
    Except PyErr ValState :=
  if 0 < features.length then
    match featureVar with
    | Option.none => .error .nameError
    | some f => validationLoopFrom f features.tail initValState
  else .ok initValState

/-- A well-formed catalog feature, first in the layer. -/
def c5feat1 : VFeature :=
  { fid := 1, sceneID := some "LE70060552001123AAA01", sensorID := some "ETM",
    dateUpdated := some "2019/01/02", envelope := some ⟨0, 2, 0, 2⟩ }

/-- A second well-formed catalog feature. -/
def c5feat2 : VFeature :=
  { fid := 2, sceneID := some "LT50060551999200AAA00", sensorID := some "TM",
    dateUpdated := some "2019/01/03", envelope := some ⟨0, 3, 0, 3⟩ }

/-- A stale WRS-2 feature left in the module-level name feature by the loop
at line 100: it has no sceneID field, so GetField("sceneID") raises. -/
def c5stale : VFeature :=
  { fid := 77, sceneID := Option.none, sensorID := Option.none,
    dateUpdated := Option.none, envelope := Option.none }

/-- C5: the claim states the validation pass examines every feature of the
layer, appending each sceneID to the scene list. In fact line 750 discards
the first feature and line 751 reads a possibly-unbound name: with the name
unbound (useWRS2 not 'yes') the pass raises NameError before examining any
feature, and with a stale WRS-2 feature bound, the pass deletes FID 77 off
the catalog layer and never reads the first catalog feature, whose sceneID
is missing from the resulting scene list. -/
theorem validation_pass_skips_first_feature_or_crashes :
    validationPass [c5feat1] Option.none = .error .nameError ∧
    (validationPass [c5feat1, c5feat2] (some c5stale)).map ValState.scenelist =
      .ok ["LT50060551999200AAA00"] ∧
    (validationPass [c5feat1, c5feat2] (some c5stale)).map ValState.deleted =
      .ok [77] := by
  refine ⟨rfl, ?_, ?_⟩ <;> rfl

/-- dateCheck never touches badgeom or deleted. -/
theorem dateCheck_preserves (st : ValState) (sid : String) (f : VFeature) :
    (dateCheck st sid f).badgeom = st.badgeom ∧
    (dateCheck st sid f).deleted = st.deleted := by
  unfold dateCheck
  rcases f.dateUpdated.bind parseYMDslash with _ | d
  · exact ⟨rfl, rfl⟩
  · rcases st.lastupdate with _ | lu
    · exact ⟨rfl, rfl⟩
    · dsimp only
      split <;> exact ⟨rfl, rfl⟩

/-- The ring construction at lines 875-888 and 922-935: each footprint
coordinate is added to the ring in order; afterwards, by the precedence of
the condition not coord[0] == coords[0][0] and coord[1] == coords[0][1],
when the last x differs from the first x and the last y equals the first y
the code runs ring.AddPoint(coord[0][0], coord[0][1]), which subscripts the
float coord[0] and raises TypeError; in every other case no closing point is
added. An empty coordinate list would leave the loop name coord unbound,
raising NameError. -/
def buildRing (coords : List (Int × Int)) : Except PyErr (List (Int × Int)) :=
  match coords.head?, coords.getLast? with
  | some c0, some last =>
    if ¬ last.1 = c0.1 ∧ last.2 = c0.2 then .error .typeError
    else .ok coords
  | _, _ => .error .nameError

/-- The geometry-update branch at lines 920-935: build the ring from the
freshly queried footprint, wrap it in a polygon, transform it to the local
projection and set it as the feature's geometry. The coordinate
transformation is an input of the model. -/
def updateGeometry (transform : List (Int × Int) → List (Int × Int))
    (f : GpkgFeature) (coords : List (Int × Int)) : Except PyErr GpkgFeature :=
  match buildRing coords with
  | .error e => .error e
  | .ok ring => .ok { f with geometry := some (transform ring) }

/-- C9 counterexample: the claim states ring construction never raises, even
when the footprint's last coordinate differs from its first. For the
footprint [(0,0), (1,0)], whose last x differs from the first x while the
y coordinates agree, the closing branch executes coord[0][0] and raises
TypeError. -/
theorem ring_construction_typeerror_counterexample :
    buildRing [(0, 0), (1, 0)] = .error .typeError := by rfl

/-- C9 amended: the ring always consists of exactly the footprint's
coordinates in order, so it is closed precisely when the footprint itself is
closed; for a closed footprint (last coordinate equal to the first)
construction succeeds without exception; for an unclosed footprint the
construction raises TypeError when the last x differs from the first x while
the last y equals the first y, and otherwise returns the ring unclosed: the
closing point is never successfully added. -/
theorem ring_construction_amended (coords : List (Int × Int)) (c0 last : Int × Int)
    (h0 : coords.head? = some c0) (hl : coords.getLast? = some last) :
    (last = c0 → buildRing coords = .ok coords) ∧
    (¬ last.1 = c0.1 → last.2 = c0.2 → buildRing coords = .error .typeError) ∧
    (last.1 = c0.1 ∨ ¬ last.2 = c0.2 → buildRing coords = .ok coords) := by
  have hred : buildRing coords =
      if ¬ last.1 = c0.1 ∧ last.2 = c0.2 then .error .typeError else .ok coords := by
    unfold buildRing
    rw [h0, hl]
  rw [hred]
  refine ⟨?_, ?_, ?_⟩
  · intro he
    subst he
    simp
  · intro hx hy
    rw [if_pos ⟨hx, hy⟩]
  · intro h
    rw [if_neg]
    rintro ⟨hx, hy⟩
    rcases h with h | h
    · exact hx h
    · exact h hy

/-- Witness for the amended C9 theorem on a closed footprint. -/
theorem ring_construction_amended_witness :
    ([((0 : Int), (0 : Int)), (1, 1), (0, 0)].head? = some (0, 0)) ∧
    ([((0 : Int), (0 : Int)), (1, 1), (0, 0)].getLast? = some (0, 0)) ∧
    buildRing [(0, 0), (1, 1), (0, 0)] = .ok [(0, 0), (1, 1), (0, 0)] :=
  ⟨rfl, rfl,
    (ring_construction_amended [(0, 0), (1, 1), (0, 0)] (0, 0) (0, 0) rfl rfl).1 rfl⟩

/-- For a feature whose sceneID reads fine and whose SensorID passes the
membership test, the loop body runs the date check and then the geometry
check on the state with the sceneID appended. -/
theorem validationStep_valid_sensor (st : ValState) (f : VFeature) (sid : String)
    (hsid : f.sceneID = some sid)
    (hc : (validSensorIDs.map Option.some).contains f.sensorID = true) :
    validationStep st f =
      .ok (geomCheck (dateCheck { st with scenelist := st.scenelist ++ [sid] } sid f)
        sid f) := by
  obtain ⟨fid, fsce, fsen, fdate, fenv⟩ := f
  simp only at hsid hc
  subst hsid
  unfold validationStep
  rw [hc]
  rfl

/-- C6: in the validation loop body, for a feature whose sceneID reads fine
and whose SensorID is valid, the feature is classified as bad geometry
exactly when reading its geometry raises or its envelope is degenerate
(minX = maxX or minY = maxY), and the step deletes nothing; and in the
update branch, a flagged feature's geometry is replaced by the transformed
polygon built from the freshly queried footprint (stated for the closed
rings that GeoJSON footprints carry; an unclosed footprint may instead raise,
see the ring-construction theorems). -/
theorem validation_geometry_classification_and_update :
    (∀ (st : ValState) (f : VFeature) (sid : String),
      f.sceneID = some sid →
      f.sensorID ∈ validSensorIDs.map Option.some →
      ¬ sid ∈ st.badgeom →
      ∃ st1, validationStep st f = .ok st1 ∧
        (sid ∈ st1.badgeom ↔
          f.envelope = Option.none ∨
          ∃ env, f.envelope = some env ∧ (env.minX = env.maxX ∨ env.minY = env.maxY)) ∧
        st1.deleted = st.deleted) ∧
    (∀ (transform : List (Int × Int) → List (Int × Int)) (g : GpkgFeature)
        (coords : List (Int × Int)) (c0 : Int × Int),
      coords.head? = some c0 → coords.getLast? = some c0 →
      updateGeometry transform g coords = .ok { g with geometry := some (transform coords) }) := by
  constructor
  · intro st f sid hsid hsens hnew
    have hc : (validSensorIDs.map Option.some).contains f.sensorID = true :=
      List.elem_eq_true_of_mem hsens
    set st2 := dateCheck { st with scenelist := st.scenelist ++ [sid] } sid f with hst2
    have hb : st2.badgeom = st.badgeom :=
      (dateCheck_preserves { st with scenelist := st.scenelist ++ [sid] } sid f).1
    have hd2 : st2.deleted = st.deleted :=
      (dateCheck_preserves { st with scenelist := st.scenelist ++ [sid] } sid f).2
    refine ⟨geomCheck st2 sid f, validationStep_valid_sensor st f sid hsid hc, ?_, ?_⟩
    · unfold geomCheck
      rcases henv : f.envelope with _ | env
      · simp [hb]
      · dsimp only
        by_cases hdeg : env.minX = env.maxX ∨ env.minY = env.maxY
        · simp [hdeg, hb, henv]
        · rw [if_neg hdeg]
          rw [hb]
          simp only [henv, hnew, false_iff]
          rintro (h | ⟨env2, henv2, hdeg2⟩)
          · cases h
          · have he : env2 = env := Option.some.inj henv2.symm
            subst he
            exact hdeg hdeg2
    · unfold geomCheck
      rcases f.envelope with _ | env
      · simpa using hd2
      · dsimp only
        split <;> simpa using hd2
  · intro transform g coords c0 h0 hl
    have hbr : buildRing coords = .ok coords := by
      unfold buildRing
      rw [h0, hl]
      simp
    unfold updateGeometry
    rw [hbr]

/-- Witness for C6 at a concrete feature with a degenerate envelope and a
concrete closed footprint. -/
theorem validation_geometry_classification_and_update_witness :
    ((c5feat1.sceneID = some "LE70060552001123AAA01") ∧
      c5feat1.sensorID ∈ validSensorIDs.map Option.some ∧
      ¬ "LE70060552001123AAA01" ∈ initValState.badgeom ∧
      ∃ st1, validationStep initValState c5feat1 = .ok st1 ∧
        ("LE70060552001123AAA01" ∈ st1.badgeom ↔
          c5feat1.envelope = Option.none ∨
          ∃ env, c5feat1.envelope = some env ∧
            (env.minX = env.maxX ∨ env.minY = env.maxY)) ∧
        st1.deleted = initValState.deleted) ∧
    updateGeometry id { fields := [], geometry := Option.none } [(0, 0), (1, 1), (0, 0)] =
      .ok { fields := [], geometry := some [(0, 0), (1, 1), (0, 0)] } :=
  ⟨⟨rfl, by decide, by decide,
    validation_geometry_classification_and_update.1 initValState c5feat1
      "LE70060552001123AAA01" rfl (by decide) (by decide)⟩,
   validation_geometry_classification_and_update.2 id
     { fields := [], geometry := Option.none } [(0, 0), (1, 1), (0, 0)] (0, 0) rfl rfl⟩

end IEO
